import Mathlib

/-!
Shallow embedding of the trivia backend (`backend/flaskr/__init__.py`) and
proofs about its request handlers.

The relational store is modelled as an in-memory list of rows.  The ORM layer
(`models.py`, which only declares the two tables and the `insert`, `delete`
and `format` helpers) is not part of the handler file; following the spec,
`Question.category` is a string-typed column, new `Question` ids are assigned
by a monotone serial counter, and `format()` is the identity projection of a
row's fields.  Request-body fields read with `body.get(key, None)` are
modelled as `Option` values (absent field = `none`, mirroring SQL NULL in the
stored row).  Environmental failures of `insert()` / `delete()` (the operation
raising inside the handler's `try`) are modelled by an explicit boolean flag
passed to the handler.
-/

/-- A row of the `Question` table.  Modelled from the spec: `models.py` is not
in the handler file; §3 gives `{id, question, answer, category, difficulty}`
with `category` stored as a string-typed foreign value.  Nullable columns are
`Option`; `format()` is the identity on these fields. -/
structure Question where
  id : Nat
  question : Option String
  answer : Option String
  category : Option String
  difficulty : Option Int
deriving Repr, DecidableEq

/-- A row of the `Category` table.  Modelled from the spec: §3 gives
`{id: integer, type: string}`. -/
structure TriviaCategory where
  id : Nat
  type : String
deriving Repr, DecidableEq

/-- The relational store: the two tables plus the serial id counter used by
the database to assign the next `Question.id` on insert. -/
structure Store where
  questions : List Question
  categories : List TriviaCategory
  nextId : Nat
deriving Repr, DecidableEq

/-- Well-formed store: the serial counter is ahead of every existing row id
(what a SERIAL primary-key column guarantees). -/
def Store.WF (s : Store) : Prop := ∀ q ∈ s.questions, q.id < s.nextId

instance (s : Store) : Decidable s.WF := by
  unfold Store.WF; infer_instance

/-- The three HTTP error codes that have registered error handlers
(`@app.errorhandler(404/422/400)`). -/
inductive ApiError where
  | notFound
  | unprocessable
  | badRequest
deriving Repr, DecidableEq

/-- Status code of each handled error (the second element of the handler's
return pair). -/
def ApiError.status : ApiError → Nat
  | .notFound => 404
  | .unprocessable => 422
  | .badRequest => 400

/-- The fixed `message` string of each handled error's JSON envelope. -/
def ApiError.message : ApiError → String
  | .notFound => "resource not found"
  | .unprocessable => "unprocessable"
  | .badRequest => "bad request"

/-- Outcome of a request handler: a success body, an abort mapped to one of
the registered error handlers, or an exception that escapes the handler
uncaught (e.g. `None.format()` raising `AttributeError`). -/
inductive HResult (α : Type) where
  | ok (a : α)
  | err (e : ApiError)
  | crash
deriving Repr, DecidableEq

/-- `QUESTIONS_PER_PAGE = 10`. -/
def QUESTIONS_PER_PAGE : Nat := 10

/-- `paginate_questions(request, selection)`: reads the `page` query
parameter (default 1) and returns the Python slice
`questions[start:stop]` with `start = (page-1)*10`, `stop = start+10`.
For a non-negative `start ≤ stop` the Python slice `l[start:stop]` is
`(l.take stop).drop start`.  The `page` parameter is passed explicitly here
(it comes from the query string of whichever request invokes the helper). -/
def paginate_questions (page : Nat) (selection : List Question) : List Question :=
  let start := (page - 1) * QUESTIONS_PER_PAGE
  let stop := start + QUESTIONS_PER_PAGE
  (selection.take stop).drop start

/-- `Question.id ≤` ordering used by `order_by(Question.id)`. -/
def qle (a b : Question) : Prop := a.id ≤ b.id

instance : DecidableRel qle := fun a b => by unfold qle; infer_instance

instance : IsTotal Question qle := ⟨fun a b => Nat.le_total a.id b.id⟩

instance : IsTrans Question qle := ⟨fun _ _ _ h1 h2 => Nat.le_trans h1 h2⟩

/-- `Question.query.order_by(Question.id).all()`: the table rows sorted by
ascending id (stable sort). -/
def orderById (l : List Question) : List Question := List.insertionSort qle l

/-- Response body of `GET /questions` (the constant `current_category: []`
field is omitted). -/
structure ListQResp where
  questions : List Question
  total_questions : Nat
  categories : List String
deriving Repr, DecidableEq

/-- `GET /questions` (`get_questions`). -/
def get_questions (s : Store) (page : Nat) : HResult ListQResp :=
  let selection := orderById s.questions
  let current_questions := paginate_questions page selection
  if current_questions.length = 0 then .err .notFound
  else .ok { questions := current_questions,
             total_questions := selection.length,
             categories := s.categories.map (fun c => c.type) }

/-- The body of the `try:` block of `delete_question_by_id`.
`one_or_none()` returns the unique matching row, `none` when there is no
match, and raises (here: `.crash`) when several rows match; the explicit
`abort(404)` on a missing row raises an `HTTPException` *inside* the `try`.
`deleteOk` models whether `question.delete()` itself succeeds. -/
def delete_try_body (s : Store) (question_id : Nat) (deleteOk : Bool) :
    HResult Nat × Store :=
  match s.questions.filter (fun q => decide (q.id = question_id)) with
  | [] => (.err .notFound, s)
  | [_] =>
      if deleteOk then
        (.ok question_id,
         { s with questions := s.questions.filter (fun q => decide (q.id ≠ question_id)) })
      else (.crash, s)
  | _ => (.crash, s)

/-- `DELETE /questions/<question_id>` (`delete_question_by_id`): the whole
body sits in a `try: ... except Exception: abort(422)`, so every raised
exception — including the `abort(404)` HTTPException — is converted to 422. -/
def delete_question_by_id (s : Store) (question_id : Nat) (deleteOk : Bool) :
    HResult Nat × Store :=
  match delete_try_body s question_id deleteOk with
  | (.ok r, s2) => (.ok r, s2)
  | (_, s2) => (.err .unprocessable, s2)

/-- JSON body of `POST /questions`, each field read with
`body.get(key, None)`. -/
structure QuestionBody where
  question : Option String
  answer : Option String
  category : Option String
  difficulty : Option Int
  searchTerm : Option String
deriving Repr, DecidableEq

/-- Response body shared by the search and create branches of
`POST /questions` (the search branch's constant `current_category: []` is
omitted). -/
structure QResp where
  questions : List Question
  total_questions : Nat
deriving Repr, DecidableEq

/-- Bool test `c ∈ hay` over char lists: is `needle` a contiguous infix? -/
def containsSub (hay needle : List Char) : Bool :=
  match hay with
  | [] => needle.isEmpty
  | _ :: t => needle.isPrefixOf hay || containsSub t needle

/-- `Question.question.ilike('%term%')`: case-insensitive substring match of
the search term against the question text; a NULL text matches nothing.
(For terms free of the SQL wildcard characters this is exactly `ilike`.) -/
def ilikeMatch (text : Option String) (term : String) : Bool :=
  match text with
  | none => false
  | some t => containsSub (t.data.map Char.toLower) (term.data.map Char.toLower)

/-- Search branch of `add_question` (taken when `search_term` is truthy):
filter by `ilike`, paginate, 404 when the *unsliced* match set is empty. -/
def search_branch (s : Store) (page : Nat) (term : String) : HResult QResp :=
  let selection := s.questions.filter (fun q => ilikeMatch q.question term)
  let current_questions := paginate_questions page selection
  if selection.length = 0 then .err .notFound
  else .ok { questions := current_questions, total_questions := selection.length }

/-- Create branch of `add_question`: insert the submitted fields as a new row
(the store assigns `nextId`), then return the paginated id-ordered list and
the new total; any exception from `insert()` (`insertOk = false`) aborts 422. -/
def create_branch (s : Store) (page : Nat) (b : QuestionBody) (insertOk : Bool) :
    HResult QResp × Store :=
  if insertOk then
    let q : Question := { id := s.nextId, question := b.question, answer := b.answer,
                          category := b.category, difficulty := b.difficulty }
    let s2 : Store := { s with questions := s.questions ++ [q], nextId := s.nextId + 1 }
    let selection := orderById s2.questions
    let current_questions := paginate_questions page selection
    (.ok { questions := current_questions, total_questions := selection.length }, s2)
  else (.err .unprocessable, s)

/-- `POST /questions` (`add_question`): branches on the Python truthiness of
`search_term` (`if search_term:`), so `None` and `""` both take the create
branch. -/
def add_question (s : Store) (page : Nat) (b : QuestionBody) (insertOk : Bool) :
    HResult QResp × Store :=
  match b.searchTerm with
  | some t => if t = "" then create_branch s page b insertOk else (search_branch s page t, s)
  | none => create_branch s page b insertOk

/-- Response body of `GET /categories/<category_id>/questions`. -/
structure CatQResp where
  questions : List Question
  total_questions : Nat
  categories : List String
  current_category : TriviaCategory
deriving Repr, DecidableEq

/-- `GET /categories/<category_id>/questions` (`get_questions_by_category`):
filters on `Question.category == str(category_id)`, 404 when the paginated
slice is empty; otherwise builds the response, where
`current_category.format()` raises uncaught (`.crash`) when the category
lookup (`first()`) returned `None`. -/
def get_questions_by_category (s : Store) (category_id : Nat) (page : Nat) :
    HResult CatQResp :=
  let current_category := s.categories.find? (fun c => decide (c.id = category_id))
  let selection := (orderById s.questions).filter
    (fun q => decide (q.category = some (toString category_id)))
  let current_questions := paginate_questions page selection
  if current_questions.length = 0 then .err .notFound
  else
    match current_category with
    | none => .crash
    | some cat => .ok { questions := current_questions,
                        total_questions := selection.length,
                        categories := s.categories.map (fun c => c.type),
                        current_category := cat }

/-- Response body of `POST /quizzes`. -/
structure QuizResp where
  question : Option Question
deriving Repr, DecidableEq

/-- The quiz pool: category 0 draws from all questions, otherwise the filter
`Question.category == category_id` compares the string column against the
integer id (the SQL layer coerces the untyped parameter to the column's
string type, so it matches rows whose category equals the id's decimal
string); both branches exclude ids in `previous_questions`. -/
def quizPool (s : Store) (category_id : Int) (previous_questions : List Nat) :
    List Question :=
  if category_id = 0 then
    s.questions.filter (fun q => !(decide (q.id ∈ previous_questions)))
  else
    (s.questions.filter (fun q => decide (q.category = some (toString category_id)))).filter
      (fun q => !(decide (q.id ∈ previous_questions)))

/-- `POST /quizzes` (`get_quiz_questions`) for a well-formed body:
`order_by(func.random()).first()` returns one element of the pool chosen by
the database's random permutation — modelled by the index `pick % pool.length`
— or `None` when the pool is empty; the response is a 200 success either way. -/
def get_quiz_questions (s : Store) (category_id : Int)
    (previous_questions : List Nat) (pick : Nat) : HResult QuizResp :=
  let pool := quizPool s category_id previous_questions
  .ok { question := pool[pick % pool.length]? }

/-- The row built by the create branch of `add_question`
(`Question(question=..., answer=..., category=..., difficulty=...)` followed
by `insert()`): the submitted fields plus the serial id the store assigns. -/
def newQuestion (s : Store) (b : QuestionBody) : Question :=
  { id := s.nextId, question := b.question, answer := b.answer,
    category := b.category, difficulty := b.difficulty }

/-! ### Concrete fixtures used by witnesses and counterexamples -/

/-- Empty store. -/
def sEmpty : Store := ⟨[], [], 1⟩

/-- A store with one question carrying no text fields. -/
def sOne : Store := ⟨[⟨1, none, none, none, none⟩], [], 2⟩

/-- A store with ten questions, ids 1 through 10. -/
def sTen : Store := ⟨(List.range 10).map (fun i => ⟨i + 1, none, none, none, none⟩), [], 11⟩

/-- A store with one question whose text contains "Title". -/
def sTitle : Store := ⟨[⟨1, some "The Title", none, none, none⟩], [], 2⟩

/-- A store with one question in category "1" and the matching category row. -/
def sCat : Store := ⟨[⟨1, none, none, some "1", none⟩], [⟨1, "Science"⟩], 2⟩

/-- A store with a question referencing category 5 while no category row with
id 5 exists (referential integrity is not enforced, spec §3). -/
def sOrphan : Store := ⟨[⟨1, none, none, some "5", none⟩], [], 2⟩

/-- A create-request body with every field absent. -/
def bNone : QuestionBody := ⟨none, none, none, none, none⟩

/-- A body whose searchTerm is the empty string: present but falsy. -/
def bEmptyTerm : QuestionBody := ⟨none, none, none, none, some ""⟩

/-- A search body for the term "title". -/
def bTitle : QuestionBody := ⟨none, none, none, none, some "title"⟩

example : get_questions ⟨[⟨1, none, none, none, none⟩], [], 2⟩ 1 =
    .ok { questions := [⟨1, none, none, none, none⟩], total_questions := 1,
          categories := [] } := by decide

example : get_questions ⟨[⟨1, none, none, none, none⟩], [], 2⟩ 2 =
    .err .notFound := by decide

example : delete_question_by_id ⟨[], [], 1⟩ 7 true = (.err .unprocessable, ⟨[], [], 1⟩) := by
  decide

example : ilikeMatch (some "The Title") "title" = true := by decide

example : get_quiz_questions ⟨[⟨1, none, none, some "1", none⟩], [], 2⟩ 1 [] 0 =
    .ok { question := some ⟨1, none, none, some "1", none⟩ } := by decide

example : get_quiz_questions ⟨[⟨1, none, none, some "1", none⟩], [], 2⟩ 1 [1] 5 =
    .ok { question := none } := by decide

/-! ### Helper lemmas -/

theorem length_paginate (page : Nat) (l : List Question) :
    (paginate_questions page l).length =
      min QUESTIONS_PER_PAGE (l.length - (page - 1) * QUESTIONS_PER_PAGE) := by
  simp only [paginate_questions, QUESTIONS_PER_PAGE, List.length_drop, List.length_take]
  omega

theorem length_orderById (l : List Question) : (orderById l).length = l.length :=
  (List.perm_insertionSort qle l).length_eq

theorem mem_orderById (x : Question) (l : List Question) : x ∈ orderById l ↔ x ∈ l :=
  (List.perm_insertionSort qle l).mem_iff

theorem sorted_orderById (l : List Question) : List.Sorted qle (orderById l) :=
  List.sorted_insertionSort qle l

theorem sublist_paginate (page : Nat) (l : List Question) :
    List.Sublist (paginate_questions page l) l :=
  List.Sublist.trans (List.drop_sublist _ _) (List.take_sublist _ _)

theorem sorted_paginate (page : Nat) (l : List Question) (h : List.Sorted qle l) :
    List.Sorted qle (paginate_questions page l) :=
  List.Pairwise.sublist (sublist_paginate page l) h

theorem paginate_eq_nil (page : Nat) (l : List Question)
    (h : l.length ≤ (page - 1) * QUESTIONS_PER_PAGE) :
    paginate_questions page l = [] := by
  simp only [paginate_questions]
  apply List.drop_eq_nil_of_le
  simp only [List.length_take]
  omega

theorem mem_paginate_exists (l : List Question) (x : Question) (hx : x ∈ l) :
    ∃ p, 1 ≤ p ∧ x ∈ paginate_questions p l := by
  obtain ⟨i, hi, hget⟩ := List.mem_iff_getElem.mp hx
  refine ⟨i / 10 + 1, by omega, ?_⟩
  rw [List.mem_iff_getElem?]
  refine ⟨i - i / 10 * 10, ?_⟩
  simp only [paginate_questions, QUESTIONS_PER_PAGE, Nat.add_sub_cancel]
  rw [List.getElem?_drop, List.getElem?_take]
  rw [if_pos (by omega)]
  rw [show i / 10 * 10 + (i - i / 10 * 10) = i from by omega]
  rw [List.getElem?_eq_getElem hi, hget]

theorem delete_missing_eq (s : Store) (qid : Nat) (dok : Bool)
    (h : s.questions.filter (fun q => decide (q.id = qid)) = []) :
    delete_question_by_id s qid dok = (.err .unprocessable, s) := by
  unfold delete_question_by_id delete_try_body
  rw [h]

theorem delete_failed_eq (s : Store) (qid : Nat) :
    delete_question_by_id s qid false = (.err .unprocessable, s) := by
  unfold delete_question_by_id delete_try_body
  rcases hf : s.questions.filter (fun q => decide (q.id = qid)) with _ | ⟨a, _ | ⟨b, t⟩⟩ <;>
    (rw [hf]; try rfl)

theorem get_questions_ok (s : Store) (page : Nat)
    (h : (page - 1) * QUESTIONS_PER_PAGE < s.questions.length) :
    get_questions s page =
      HResult.ok { questions := paginate_questions page (orderById s.questions),
                   total_questions := s.questions.length,
                   categories := s.categories.map (fun c => c.type) } := by
  simp only [get_questions]
  rw [if_neg (by rw [length_paginate, length_orderById]; simp only [QUESTIONS_PER_PAGE] at *; omega)]
  rw [length_orderById]

theorem get_questions_beyond (s : Store) (page : Nat)
    (h : s.questions.length ≤ (page - 1) * QUESTIONS_PER_PAGE) :
    get_questions s page = HResult.err ApiError.notFound := by
  simp only [get_questions]
  rw [if_pos (by rw [length_paginate, length_orderById]; simp only [QUESTIONS_PER_PAGE] at *; omega)]

theorem get_questions_contains (s : Store) (x : Question) (hx : x ∈ s.questions) :
    ∃ p r, 1 ≤ p ∧ get_questions s p = HResult.ok r ∧ x ∈ r.questions := by
  obtain ⟨p, hp, hmem⟩ :=
    mem_paginate_exists (orderById s.questions) x ((mem_orderById x s.questions).mpr hx)
  have hne : ¬ (paginate_questions p (orderById s.questions)).length = 0 := by
    intro h0
    rw [List.length_eq_zero] at h0
    rw [h0] at hmem
    exact List.not_mem_nil x hmem
  refine ⟨p, { questions := paginate_questions p (orderById s.questions),
               total_questions := (orderById s.questions).length,
               categories := s.categories.map (fun c => c.type) }, hp, ?_, hmem⟩
  simp only [get_questions]
  rw [if_neg hne]

theorem create_branch_ok (s : Store) (page : Nat) (b : QuestionBody) :
    create_branch s page b true =
      (HResult.ok { questions := paginate_questions page (orderById (s.questions ++ [newQuestion s b])),
                    total_questions := s.questions.length + 1 },
       { questions := s.questions ++ [newQuestion s b], categories := s.categories,
         nextId := s.nextId + 1 }) := by
  simp only [create_branch, newQuestion, if_pos]
  rw [length_orderById, List.length_append, List.length_singleton]

theorem create_branch_failed (s : Store) (page : Nat) (b : QuestionBody) :
    create_branch s page b false = (.err .unprocessable, s) := rfl

theorem mem_quizPool (s : Store) (cid : Int) (prev : List Nat) (q : Question)
    (h : q ∈ quizPool s cid prev) :
    q ∈ s.questions ∧ q.id ∉ prev ∧ (cid ≠ 0 → q.category = some (toString cid)) := by
  by_cases hc : cid = 0
  · subst hc
    simp [quizPool, List.mem_filter] at h
    exact ⟨h.1, h.2, fun hne => absurd rfl hne⟩
  · simp [quizPool, hc, List.mem_filter] at h
    exact ⟨h.1, h.2.1, fun _ => h.2.2⟩

/-! ### Claims -/

/-- Claim C1 (counterexample): deleting id 5 from the empty store does not
produce the 404 not-found response the claim asserts; the `abort(404)` is
raised inside the `try` block and the catch-all converts it to 422. -/
theorem delete_not_found_counterexample :
    (delete_question_by_id sEmpty 5 true).1 ≠ HResult.err ApiError.notFound ∧
    delete_question_by_id sEmpty 5 true = (HResult.err ApiError.unprocessable, sEmpty) := by
  decide

/-- Claim C1 (amended): a DELETE for a missing id yields 422 (the not-found
abort is raised inside the exception-catching and re-mapped by the catch-all),
deletion failures for any other reason also yield 422, and the store is
unchanged in both cases. -/
theorem delete_not_found_maps_to_422 (s : Store) (qid : Nat) :
    (s.questions.filter (fun q => decide (q.id = qid)) = [] →
        ∀ dok, delete_question_by_id s qid dok = (HResult.err ApiError.unprocessable, s)) ∧
    delete_question_by_id s qid false = (HResult.err ApiError.unprocessable, s) :=
  ⟨fun h dok => delete_missing_eq s qid dok h, delete_failed_eq s qid⟩

/-- Claim C1 (witness): the amended claim evaluated on the empty store. -/
theorem delete_not_found_maps_to_422_witness :
    delete_question_by_id sEmpty 5 true = (HResult.err ApiError.unprocessable, sEmpty) :=
  (delete_not_found_maps_to_422 sEmpty 5).1 (by decide) true

/-- Claim C2: for every DELETE of an id with no matching question, the
response is status 422 with message "unprocessable" (not 404) and the store
is unchanged. -/
theorem delete_nonexistent_returns_422 (s : Store) (qid : Nat) (dok : Bool)
    (h : ∀ q ∈ s.questions, q.id ≠ qid) :
    ∃ e, delete_question_by_id s qid dok = (HResult.err e, s) ∧
      e.status = 422 ∧ e.message = "unprocessable" ∧ e ≠ ApiError.notFound := by
  refine ⟨.unprocessable, ?_, rfl, rfl, by decide⟩
  apply delete_missing_eq
  rw [List.filter_eq_nil_iff]
  intro a ha
  simpa using h a ha

/-- Claim C2 (witness): deleting id 9 from the empty store. -/
theorem delete_nonexistent_returns_422_witness :
    ∃ e, delete_question_by_id sEmpty 9 true = (HResult.err e, sEmpty) ∧
      e.status = 422 ∧ e.message = "unprocessable" ∧ e ≠ ApiError.notFound :=
  delete_nonexistent_returns_422 sEmpty 9 true (by decide)

/-- Claim C4: for every store and page N ≥ 1, when the window
`[(N-1)*10, (N-1)*10+10)` over the id-ordered question list is non-empty,
GET /questions returns exactly that window — `min(10, total-(N-1)*10)`
questions in ascending id order — with `total_questions` the full count;
when the window is empty (N beyond the last page, or an empty store), it
responds 404. -/
theorem get_questions_pagination (s : Store) (N : Nat) (_hN : 1 ≤ N) :
    ((N - 1) * QUESTIONS_PER_PAGE < s.questions.length →
      get_questions s N =
        HResult.ok { questions := paginate_questions N (orderById s.questions),
                     total_questions := s.questions.length,
                     categories := s.categories.map (fun c => c.type) } ∧
      (paginate_questions N (orderById s.questions)).length =
        min QUESTIONS_PER_PAGE (s.questions.length - (N - 1) * QUESTIONS_PER_PAGE) ∧
      List.Sorted qle (paginate_questions N (orderById s.questions))) ∧
    (s.questions.length ≤ (N - 1) * QUESTIONS_PER_PAGE →
      get_questions s N = HResult.err ApiError.notFound) := by
  constructor
  · intro h
    refine ⟨get_questions_ok s N h, ?_, sorted_paginate _ _ (sorted_orderById _)⟩
    rw [length_paginate, length_orderById]
  · exact get_questions_beyond s N

/-- Claim C4 (witness): page 1 of a one-question store succeeds; page 2 of
the same store is 404. -/
theorem get_questions_pagination_witness :
    (get_questions sOne 1 =
        HResult.ok { questions := paginate_questions 1 (orderById sOne.questions),
                     total_questions := sOne.questions.length,
                     categories := sOne.categories.map (fun c => c.type) } ∧
      (paginate_questions 1 (orderById sOne.questions)).length =
        min QUESTIONS_PER_PAGE (sOne.questions.length - (1 - 1) * QUESTIONS_PER_PAGE) ∧
      List.Sorted qle (paginate_questions 1 (orderById sOne.questions))) ∧
    get_questions sOne 2 = HResult.err ApiError.notFound :=
  ⟨(get_questions_pagination sOne 1 (by decide)).1 (by decide),
   (get_questions_pagination sOne 2 (by decide)).2 (by decide)⟩

/-- Claim C3 (counterexample): a successful create request sent with
`?page=2` to a ten-question store returns only the eleventh question — not
the first ten of the id-ordered list — so the create branch's `questions`
field is not independent of the page query parameter: `paginate_questions`
does read it. -/
theorem create_ignores_page_counterexample :
    (add_question sTen 2 bNone true).1 =
      HResult.ok { questions := [⟨11, none, none, none, none⟩], total_questions := 11 } ∧
    paginate_questions 1 (orderById (sTen.questions ++ [⟨11, none, none, none, none⟩])) ≠
      [⟨11, none, none, none, none⟩] := by
  decide

/-- Claim C3 (amended): for every successful create request, the `questions`
field is the full id-ordered question list paginated according to the
request's `page` query parameter (hence page 1 when the parameter is absent,
its default), and `total_questions` is the new total count. -/
theorem create_paginates_by_page_param (s : Store) (page : Nat) (b : QuestionBody)
    (hterm : b.searchTerm = none) :
    add_question s page b true =
      (HResult.ok
        { questions := paginate_questions page (orderById (s.questions ++ [newQuestion s b])),
          total_questions := s.questions.length + 1 },
       { questions := s.questions ++ [newQuestion s b], categories := s.categories,
         nextId := s.nextId + 1 }) := by
  simp only [add_question, hterm]
  exact create_branch_ok s page b

/-- Claim C3 (witness): the amended claim evaluated at page 2 on a
one-question store. -/
theorem create_paginates_by_page_param_witness :
    add_question sOne 2 bNone true =
      (HResult.ok
        { questions := paginate_questions 2 (orderById (sOne.questions ++ [newQuestion sOne bNone])),
          total_questions := sOne.questions.length + 1 },
       { questions := sOne.questions ++ [newQuestion sOne bNone], categories := sOne.categories,
         nextId := sOne.nextId + 1 }) :=
  create_paginates_by_page_param sOne 2 bNone rfl

/-- Claim C8: a successful create leaves the store equal to the prior store
plus exactly one new question carrying the submitted fields, reports
`total_questions` as the prior total plus one, and the new question appears
in a subsequent GET /questions listing; when `insert()` raises, the response
is 422 and the store is unchanged. -/
theorem create_question_adds_one (s : Store) (page : Nat) (b : QuestionBody)
    (hwf : s.WF) (hterm : b.searchTerm = none) :
    (∃ r s2, add_question s page b true = (HResult.ok r, s2) ∧
      s2.questions = s.questions ++ [newQuestion s b] ∧
      newQuestion s b ∉ s.questions ∧
      r.total_questions = s.questions.length + 1 ∧
      ∃ p r2, 1 ≤ p ∧ get_questions s2 p = HResult.ok r2 ∧
        newQuestion s b ∈ r2.questions) ∧
    add_question s page b false = (HResult.err ApiError.unprocessable, s) := by
  have hred : ∀ iok, add_question s page b iok = create_branch s page b iok := by
    intro iok
    simp only [add_question, hterm]
  constructor
  · rw [hred, create_branch_ok]
    refine ⟨_, _, rfl, rfl, ?_, rfl, ?_⟩
    · intro hmem
      exact Nat.lt_irrefl s.nextId (hwf _ hmem)
    · exact get_questions_contains _ (newQuestion s b)
        (List.mem_append_right _ (List.mem_singleton.mpr rfl))
  · rw [hred]
    exact create_branch_failed s page b

/-- Claim C8 (witness): the failure half evaluated on a one-question store. -/
theorem create_question_adds_one_witness :
    add_question sOne 1 bNone false = (HResult.err ApiError.unprocessable, sOne) :=
  (create_question_adds_one sOne 1 bNone (by decide) rfl).2

/-- Claim C9: a body whose `searchTerm` is absent (`None`) or the empty
string takes the create branch — branch selection tests Python truthiness of
the value, not presence of the field. -/
theorem search_term_truthiness (s : Store) (page : Nat) (b : QuestionBody) (iok : Bool)
    (h : b.searchTerm = none ∨ b.searchTerm = some "") :
    add_question s page b iok = create_branch s page b iok := by
  rcases h with h | h <;> simp [add_question, h]

/-- Claim C9 (witness): the empty-string searchTerm body takes the create
branch on a one-question store. -/
theorem search_term_truthiness_witness :
    add_question sOne 1 bEmptyTerm true = create_branch sOne 1 bEmptyTerm true :=
  search_term_truthiness sOne 1 bEmptyTerm true (Or.inr rfl)

/-- Claim C5: a POST /questions body whose `searchTerm` matches N question
texts as a case-insensitive substring yields 404 when N = 0, and otherwise a
success whose `total_questions` is N and whose `questions` are exactly the
matching ones, paginated; the store is unchanged (no insert happens). -/
theorem search_questions_matches (s : Store) (page : Nat) (b : QuestionBody)
    (term : String) (iok : Bool) (hterm : b.searchTerm = some term) (hne : term ≠ "") :
    (s.questions.filter (fun q => ilikeMatch q.question term) = [] →
      add_question s page b iok = (HResult.err ApiError.notFound, s)) ∧
    (s.questions.filter (fun q => ilikeMatch q.question term) ≠ [] →
      add_question s page b iok =
        (HResult.ok
           { questions :=
               paginate_questions page (s.questions.filter (fun q => ilikeMatch q.question term)),
             total_questions :=
               (s.questions.filter (fun q => ilikeMatch q.question term)).length },
         s)) := by
  have hred : add_question s page b iok = (search_branch s page term, s) := by
    simp only [add_question, hterm, if_neg hne]
  constructor
  · intro h
    rw [hred]
    simp [search_branch, h]
  · intro h
    rw [hred]
    simp only [search_branch]
    rw [if_neg (fun h0 => h (List.length_eq_zero.mp h0))]

/-- Claim C5 (witness): searching "title" in a store whose one question text
contains "Title". -/
theorem search_questions_matches_witness :
    add_question sTitle 1 bTitle true =
      (HResult.ok
         { questions :=
             paginate_questions 1 (sTitle.questions.filter (fun q => ilikeMatch q.question "title")),
           total_questions :=
             (sTitle.questions.filter (fun q => ilikeMatch q.question "title")).length },
       sTitle) :=
  (search_questions_matches sTitle 1 bTitle "title" true rfl (by decide)).2 (by decide)

/-- Claim C10: a search with at least one match but a `page` parameter beyond
the last page of matches is a 200 success with an empty `questions` list and
`total_questions` equal to the match count — the search branch's 404 check
tests the unsliced match set — unlike GET /questions, which 404s whenever
its own page window is empty. -/
theorem search_beyond_last_page (s : Store) (page : Nat) (b : QuestionBody)
    (term : String) (iok : Bool) (hterm : b.searchTerm = some term) (hne : term ≠ "")
    (hmatch : s.questions.filter (fun q => ilikeMatch q.question term) ≠ [])
    (hpage : (s.questions.filter (fun q => ilikeMatch q.question term)).length ≤
      (page - 1) * QUESTIONS_PER_PAGE) :
    add_question s page b iok =
      (HResult.ok
         { questions := [],
           total_questions := (s.questions.filter (fun q => ilikeMatch q.question term)).length },
       s) ∧
    (∀ s2 p2, s2.questions.length ≤ (p2 - 1) * QUESTIONS_PER_PAGE →
      get_questions s2 p2 = HResult.err ApiError.notFound) := by
  refine ⟨?_, get_questions_beyond⟩
  have hred : add_question s page b iok = (search_branch s page term, s) := by
    simp only [add_question, hterm, if_neg hne]
  rw [hred]
  simp only [search_branch]
  rw [if_neg (fun h0 => hmatch (List.length_eq_zero.mp h0))]
  rw [paginate_eq_nil page _ hpage]

/-- Claim C10 (witness): page 2 of a one-match search succeeds with an empty
list. -/
theorem search_beyond_last_page_witness :
    add_question sTitle 2 bTitle true =
      (HResult.ok
         { questions := [],
           total_questions := (sTitle.questions.filter (fun q => ilikeMatch q.question "title")).length },
       sTitle) ∧
    (∀ s2 p2, s2.questions.length ≤ (p2 - 1) * QUESTIONS_PER_PAGE →
      get_questions s2 p2 = HResult.err ApiError.notFound) :=
  search_beyond_last_page sTitle 2 bTitle "title" true rfl (by decide) (by decide) (by decide)

/-- Claim C6 (counterexample): a question stored under category "5" with no
category row 5 present makes GET /categories/5/questions dereference `None`
(`current_category.format()`) and fail, instead of returning the matching
questions as the claim asserts for every category id. -/
theorem questions_by_category_counterexample :
    (orderById sOrphan.questions).filter
        (fun q => decide (q.category = some (toString (5 : Nat)))) ≠ [] ∧
    get_questions_by_category sOrphan 5 1 = HResult.crash := by
  decide

/-- Claim C6 (amended): GET /categories/c/questions responds 404 whenever the
filtered paginated result is empty (including when no category with id c
exists); when it is non-empty and a category row with id c exists, it returns
exactly the questions whose category field equals the string form of c,
id-ordered and paginated, with `total_questions` the filtered count; when it
is non-empty but no category row with id c exists, the handler fails with an
uncaught `None.format()` error. -/
theorem questions_by_category_cases (s : Store) (cid : Nat) (page : Nat) :
    (paginate_questions page ((orderById s.questions).filter
        (fun q => decide (q.category = some (toString cid)))) = [] →
      get_questions_by_category s cid page = HResult.err ApiError.notFound) ∧
    (paginate_questions page ((orderById s.questions).filter
        (fun q => decide (q.category = some (toString cid)))) ≠ [] →
      (∀ cat, s.categories.find? (fun c => decide (c.id = cid)) = some cat →
        get_questions_by_category s cid page =
          HResult.ok { questions := paginate_questions page ((orderById s.questions).filter
                          (fun q => decide (q.category = some (toString cid)))),
                       total_questions := ((orderById s.questions).filter
                          (fun q => decide (q.category = some (toString cid)))).length,
                       categories := s.categories.map (fun c => c.type),
                       current_category := cat }) ∧
      (s.categories.find? (fun c => decide (c.id = cid)) = none →
        get_questions_by_category s cid page = HResult.crash)) := by
  refine ⟨?_, fun hne => ⟨?_, ?_⟩⟩
  · intro h
    simp only [get_questions_by_category]
    rw [if_pos (by rw [h]; rfl)]
  · intro cat hcat
    simp only [get_questions_by_category]
    rw [if_neg (fun h0 => hne (List.length_eq_zero.mp h0)), hcat]
  · intro hcat
    simp only [get_questions_by_category]
    rw [if_neg (fun h0 => hne (List.length_eq_zero.mp h0)), hcat]

/-- Claim C6 (witness): category 1 with one matching question and an existing
category row. -/
theorem questions_by_category_witness :
    get_questions_by_category sCat 1 1 =
      HResult.ok { questions := paginate_questions 1 ((orderById sCat.questions).filter
                      (fun q => decide (q.category = some (toString (1 : Nat))))),
                   total_questions := ((orderById sCat.questions).filter
                      (fun q => decide (q.category = some (toString (1 : Nat))))).length,
                   categories := sCat.categories.map (fun c => c.type),
                   current_category := ⟨1, "Science"⟩ } :=
  ((questions_by_category_cases sCat 1 1).2 (by decide)).1 ⟨1, "Science"⟩ (by decide)

/-- Claim C7: for every well-formed quiz request the response is a 200
success; the returned question, when present, is drawn from the quiz pool —
all questions when the category id is 0, otherwise the questions of that
category — excluding every id in `previous_questions`; when the pool is
exhausted the `question` field is null rather than an error, and a non-empty
pool always yields a question. -/
theorem quiz_draws_from_pool (s : Store) (cid : Int) (prev : List Nat) (pick : Nat) :
    ∃ r, get_quiz_questions s cid prev pick = HResult.ok r ∧
      (quizPool s cid prev = [] → r.question = none) ∧
      (quizPool s cid prev ≠ [] → ∃ q, r.question = some q) ∧
      (∀ q, r.question = some q → q ∈ quizPool s cid prev ∧ q ∈ s.questions ∧
        q.id ∉ prev ∧ (cid ≠ 0 → q.category = some (toString cid))) := by
  refine ⟨{ question := (quizPool s cid prev)[pick % (quizPool s cid prev).length]? },
          rfl, ?_, ?_, ?_⟩
  · intro h
    simp [h]
  · intro h
    have hlt : pick % (quizPool s cid prev).length < (quizPool s cid prev).length :=
      Nat.mod_lt _ (List.length_pos.mpr h)
    exact ⟨_, List.getElem?_eq_getElem hlt⟩
  · intro q hq
    have hq2 : q ∈ quizPool s cid prev := List.getElem?_mem hq
    obtain ⟨h1, h2, h3⟩ := mem_quizPool s cid prev q hq2
    exact ⟨hq2, h1, h2, h3⟩

/-- Claim C7 (witness): the quiz draw evaluated on a one-question store for
category 1 with no previous questions. -/
theorem quiz_draws_from_pool_witness :
    ∃ r, get_quiz_questions sCat 1 ([] : List Nat) 0 = HResult.ok r ∧
      (quizPool sCat 1 ([] : List Nat) = [] → r.question = none) ∧
      (quizPool sCat 1 ([] : List Nat) ≠ [] → ∃ q, r.question = some q) ∧
      (∀ q, r.question = some q → q ∈ quizPool sCat 1 ([] : List Nat) ∧ q ∈ sCat.questions ∧
        q.id ∉ ([] : List Nat) ∧ ((1 : Int) ≠ 0 → q.category = some (toString (1 : Int)))) :=
  quiz_draws_from_pool sCat 1 ([] : List Nat) 0
